import Mathlib

set_option maxRecDepth 100000

/-!
Verification development for the chisel_rigging procedural rig toolkit.

The definitions below are a shallow embedding of the Python source:

* `src/5_app/src/rigging_modules/ribbon.py` — the `Ribbon` module
  (derived counts, follicle parameter assignment, the uniform-factor
  accumulation loops of `getRibbon` / `getRibbonDrivers`).
* `src/5_app/src/core/module_core.py` — `Rig` / `RigModule`
  (structure creation, registration, `is_rig` / `is_module` / `cast`).
* `src/5_app/src/utility/transform_utils.py` — `create_offset`.

Python integers are embedded as `Int`; Python floats (IEEE-754 binary64)
are embedded as exact rationals together with an explicit
round-to-nearest-even operation `roundDbl`, valid on the normal range
(all values arising here lie far from overflow and underflow).
The Maya scene is embedded as an explicit `Scene` state: a creation-ordered
list of transform names, a child-to-parent map, an attribute store and the
object sets with their member lists.
-/

namespace ChiselRigging

/-! ### Ribbon derived counts

Embedding of `Ribbon.__init__` (ribbon.py lines 620-632):

    spans = self.surface.numSpansInU()
    self.n_joints = (spans * section_joints + spans if section_joints != 0 else spans) + 1
    self.n_ctrl = n_ctrl if n_ctrl != 0 else self.surface.numSpansInU() + 1
-/

/-- `Ribbon.__init__`'s derived skinning-joint count `n_joints`, as a function
of the surface span count and the `section_joints` argument. -/
def n_joints (spans section_joints : Int) : Int :=
  (if section_joints ≠ 0 then spans * section_joints + spans else spans) + 1

/-- `Ribbon.__init__`'s derived control count `n_ctrl`, as a function of the
surface span count and the `n_ctrl` constructor argument (the spec's
`ctrl_quantity`). -/
def n_ctrl (spans ctrl_quantity : Int) : Int :=
  if ctrl_quantity ≠ 0 then ctrl_quantity else spans + 1

/-! ### IEEE-754 binary64 model

Python float arithmetic is correctly rounded IEEE-754 binary64.  We model a
double as the exact rational it denotes and make the rounding explicit:
`roundDbl q` is `q` rounded to 53 significant bits, round-to-nearest,
ties-to-even.  Exponents are unbounded, which agrees with binary64 on the
normal range; every value in the ribbon loops lies in `[2^-60, 2]`, so no
overflow or underflow is reachable.

The standard `Rat.add` / `Rat.mul` are `@[irreducible]`, which blocks kernel
evaluation by `decide`; we therefore compute with `qAdd` / `qMul`, defined
through the reducible `Rat.divInt`, and prove below (`qAdd_eq`, `qMul_eq`)
that they are exactly rational `+` and `*`. -/

/-- Rational addition, computed reducibly.  `qAdd_eq` proves it equal to
`+` on `ℚ`. -/
def qAdd (a b : ℚ) : ℚ :=
  Rat.divInt (a.num * (b.den : Int) + b.num * (a.den : Int))
    ((a.den : Int) * (b.den : Int))

/-- Rational multiplication, computed reducibly.  `qMul_eq` proves it equal
to `*` on `ℚ`. -/
def qMul (a b : ℚ) : ℚ :=
  Rat.divInt (a.num * b.num) ((a.den : Int) * (b.den : Int))

/-- `2 ^ e` as a rational, for an integer (possibly negative) exponent. -/
def pow2 (e : Int) : ℚ :=
  if 0 ≤ e then Rat.ofInt ((2 : Int) ^ e.toNat)
  else Rat.divInt 1 ((2 : Int) ^ (-e).toNat)

/-- Find a scaling exponent `k` with `q * 2^k ∈ [2^52, 2^53)`, by bounded
search over a positive input (the fuel covers the whole binary64 range). -/
def scaleExp : Nat → ℚ → Int → Int
  | 0, _, k => k
  | fuel + 1, q, k =>
      if Rat.blt (qMul q (pow2 k)) (Rat.ofInt ((2 : Int) ^ 52)) then
        scaleExp fuel q (k + 1)
      else if Rat.blt (qMul q (pow2 k)) (Rat.ofInt ((2 : Int) ^ 53)) then k
      else scaleExp fuel q (k - 1)

/-- Round a rational to the nearest binary64 value (round-to-nearest,
ties-to-even), on the normal range. -/
def roundDbl (q : ℚ) : ℚ :=
  if q = 0 then 0
  else
    let neg : Bool := Rat.blt q 0
    let aq : ℚ := if neg then -q else q
    let k : Int := scaleExp 2400 aq 0
    let t : ℚ := qMul aq (pow2 k)
    let m : Int := t.floor
    let r : ℚ := qAdd t (-(Rat.ofInt m))
    let m' : Int :=
      if Rat.blt r (Rat.divInt 1 2) then m
      else if Rat.blt (Rat.divInt 1 2) r then m + 1
      else if m % 2 = 0 then m else m + 1
    let v : ℚ := qMul (Rat.ofInt m') (pow2 (-k))
    if neg then -v else v

/-! ### Ribbon uniform-factor loops

Embedding of the factor accumulation shared by `Ribbon.getRibbon`
(ribbon.py lines 661-698) and `Ribbon.getRibbonDrivers` (lines 700-717):

    percentage = 1.0 / (n_joints - 1)
    factor = 0
    for i in range(n_joints):
        ... use factor ...
        factor += percentage

Each iteration uses the current value of `factor`; the addition
`factor += percentage` is a binary64 addition, hence rounded. -/

/-- The sequence of `factor` values used by the loop: `count` iterations,
starting from `factor`, each step adding `percentage` with binary64
rounding. -/
def factorSeq : Nat → ℚ → ℚ → List ℚ
  | 0, _, _ => []
  | count + 1, factor, percentage =>
      factor :: factorSeq count (roundDbl (qAdd factor percentage)) percentage

/-- The uniform factors used for the skinning rail of `Ribbon.getRibbon`:
`percentage = 1.0 / (n_joints - 1)` is a correctly rounded binary64
division of exact inputs (`Rat.divInt 1 (n-1)` is the exact quotient). -/
def ribbonFactors (njoints : Nat) : List ℚ :=
  factorSeq njoints 0 (roundDbl (Rat.divInt 1 ((njoints : Int) - 1)))

/-- The uniform factors used for the driver rail of `Ribbon.getRibbonDrivers`
(lines 700-717): the same accumulation with `n_drv` in place of `n_joints`. -/
def driverFactors (ndrv : Nat) : List ℚ :=
  factorSeq ndrv 0 (roundDbl (Rat.divInt 1 ((ndrv : Int) - 1)))

/-! ### Follicle creation

Embedding of `Ribbon.createFollicle` (ribbon.py lines 634-644).  The method
receives `uv_position` as a two-element list and assigns

    fol_shape.parameterV.set(uv_position[0])
    fol_shape.parameterU.set(uv_position[1])

that is, element `0` goes to the V parameter and element `1` to the U
parameter. -/

/-- The sampling parameters of a follicle shape. -/
structure Follicle where
  parameterU : ℚ
  parameterV : ℚ
deriving DecidableEq, Repr

/-- `Ribbon.createFollicle(surface, uv_position, name)`: parameter assignment
of the created follicle (the surface and name play no role in it). -/
def createFollicle (uv_position : ℚ × ℚ) : Follicle :=
  { parameterV := uv_position.1, parameterU := uv_position.2 }

/-- The (skin follicle, reference follicle) pairs created by the loop of
`Ribbon.getRibbon` (lines 676-693): iteration `i` runs, at the current
accumulated `factor`,

    fol_skn = self.createFollicle(self.surface, [0.5, factor], ...)
    fol_dst = self.createFollicle(self.surface, [1.0, factor], ...)
-/
def getRibbonFollicles (njoints : Nat) : List (Follicle × Follicle) :=
  (ribbonFactors njoints).map fun factor =>
    (createFollicle (mkRat 1 2, factor), createFollicle (1, factor))

/-! ### The failing prefix of `Ribbon.build` on a zero-span surface

`Ribbon.__init__` performs no validation.  `Ribbon.build` (lines 749-764)
first calls `self.getRibbon(self.n_joints)` (lines 661-698), which creates
four groups, disables inherits-transform on two of them, and only then
evaluates `percentage = 1.0 / (n_joints - 1)` — a Python
`ZeroDivisionError` when `n_joints == 1`. -/

/-- Python exceptions relevant to the zero-span build path. -/
inductive PyErr where
  | zeroDivisionError
  | configurationError
deriving DecidableEq, Repr

/-- The nodes `getRibbon` creates, and the error it raises, before and at the
evaluation of `percentage = 1.0 / (n_joints - 1)`. -/
def ribbonBuildPrefix (name : String) (njoints : Int) : List String × Option PyErr :=
  ([name ++ "_skinning", name ++ "_follicles",
    name ++ "_FOL_static", name ++ "_FOL_dynamic"],
   if njoints - 1 = 0 then some PyErr.zeroDivisionError else none)

/-! ### Maya scene model

The scene namespace as the rig framework observes it: transform nodes in
creation order, each child's parent, the integer-valued attributes the
framework touches (`it` = inheritsTransform, `v` = visibility; world
matrices are carried as an opaque integer id under the key `worldMatrix`),
and the object sets with their member lists.  Node names are assumed unique
(the framework relies on name-as-identity throughout).  Maya object sets
ignore `addMember` of an existing member; we keep members in first-add
order. -/

/-- Look up the first entry with the given key in an association list. -/
def lookupKey {κ α : Type} [DecidableEq κ] : List (κ × α) → κ → Option α
  | [], _ => none
  | (k', v) :: rest, k => if k' = k then some v else lookupKey rest k

/-- Overwrite the first entry with the given key, or append a new entry. -/
def setKey {κ α : Type} [DecidableEq κ] : List (κ × α) → κ → α → List (κ × α)
  | [], k, v => [(k, v)]
  | (k', w) :: rest, k, v =>
      if k' = k then (k', v) :: rest else (k', w) :: setKey rest k v

/-- Modify the value of the first entry with the given key, if present. -/
def updateKey {κ α : Type} [DecidableEq κ] : List (κ × α) → κ → (α → α) → List (κ × α)
  | [], _, _ => []
  | (k', v) :: rest, k, f =>
      if k' = k then (k', f v) :: rest else (k', v) :: updateKey rest k f

/-- Append an element unless it is already present (Maya set semantics, and
the in-memory dedup idiom `if x not in xs: xs.append(x)`). -/
def addUnique (xs : List String) (x : String) : List String :=
  if x ∈ xs then xs else xs ++ [x]

/-- The Maya scene state. -/
structure Scene where
  transforms : List String
  parents : List (String × String)
  attrs : List ((String × String) × Int)
  sets : List (String × List String)
deriving DecidableEq, Repr

/-- The empty scene. -/
def Scene.empty : Scene := ⟨[], [], [], []⟩

/-- `pm.objExists(name)`, for the names this framework queries: a transform
or an object set of that name exists. -/
def Scene.objExists (s : Scene) (name : String) : Prop :=
  name ∈ s.transforms ∨ name ∈ s.sets.map Prod.fst

instance (s : Scene) (name : String) : Decidable (s.objExists name) := by
  unfold Scene.objExists
  infer_instance

/-- The parent of a node, if any. -/
def Scene.parentOf (s : Scene) (child : String) : Option String :=
  lookupKey s.parents child

/-- `pm.objExists("|parent|child")`: `parent` is a top-level transform with a
transform child of that name. -/
def Scene.pathExists2 (s : Scene) (parent child : String) : Prop :=
  parent ∈ s.transforms ∧ s.parentOf parent = none ∧
    child ∈ s.transforms ∧ s.parentOf child = some parent

instance (s : Scene) (p c : String) : Decidable (s.pathExists2 p c) := by
  unfold Scene.pathExists2
  infer_instance

/-- `pm.objExists("|a|b|c")`: depth-three full path. -/
def Scene.pathExists3 (s : Scene) (a b c : String) : Prop :=
  s.pathExists2 a b ∧ c ∈ s.transforms ∧ s.parentOf c = some b

instance (s : Scene) (a b c : String) : Decidable (s.pathExists3 a b c) := by
  unfold Scene.pathExists3
  infer_instance

/-- Create a transform node with the given (assumed fresh) name, parenting it
on creation. -/
def Scene.createTransform (s : Scene) (name : String) (parent : Option String) :
    Scene :=
  { s with
    transforms := s.transforms ++ [name]
    parents := match parent with
      | some p => s.parents ++ [(name, p)]
      | none => s.parents }

/-- `pm.parent(child, parent)`: move a node under a new parent. -/
def Scene.reparent (s : Scene) (child parent : String) : Scene :=
  { s with parents := setKey s.parents child parent }

/-- `node.attr.set(v)`. -/
def Scene.setAttr (s : Scene) (node attr : String) (v : Int) : Scene :=
  { s with attrs := setKey s.attrs (node, attr) v }

/-- `node.attr.get()`. -/
def Scene.getAttr (s : Scene) (node attr : String) : Option Int :=
  lookupKey s.attrs (node, attr)

/-- The member list of an object set, if the set exists. -/
def Scene.setMembers (s : Scene) (name : String) : Option (List String) :=
  lookupKey s.sets name

/-- Create an (empty) object set with the given name. -/
def Scene.createSet (s : Scene) (name : String) : Scene :=
  { s with sets := s.sets ++ [(name, [])] }

/-- `object_set.addMember(obj)`: no-op when the member is already in the set
(and when the set does not exist, a state the framework never reaches). -/
def Scene.addMember (s : Scene) (setName member : String) : Scene :=
  { s with sets := updateKey s.sets setName (fun ms => addUnique ms member) }

/-- Maya uniquifies a requested node name on collision; modelled by appending
`"1"` until the name is free (bounded search). -/
def uniquify : Nat → String → List String → String
  | 0, base, _ => base
  | fuel + 1, base, taken =>
      if base ∈ taken then uniquify fuel (base ++ "1") taken else base

/-- `pm.nt.Transform(n=name)`: create a transform under the world, with
Maya's name uniquification on collision; returns the actual node name. -/
def Scene.createTransformNode (s : Scene) (name : String) : String × Scene :=
  let n := uniquify 100 name s.transforms
  (n, { s with transforms := s.transforms ++ [n] })

/-! ### `transform_utils.create_offset` (lines 142-154)

    offset_transform = pm.nt.Transform(n=f"{transform_node.name()}{offset_name_suffix}")
    offset_transform.setMatrix(transform_node.getMatrix(worldSpace=True), worldSpace=True)
    pm.parent(offset_transform, transform_node.getParent())
    pm.parent(transform_node, offset_transform)
    return offset_transform

There is no existence check: the transform is created unconditionally.
`Control.create_offset` (control_lib.py lines 153-163) calls this function
directly on the control's transform. -/

/-- `create_offset(transform_node, offset_name_suffix)`. -/
def create_offset (transform_node offset_name_suffix : String) (s : Scene) :
    String × Scene :=
  let r := s.createTransformNode (transform_node ++ offset_name_suffix)
  let offset := r.1
  let s1 := r.2
  let s2 := match s1.getAttr transform_node "worldMatrix" with
    | some mtx => s1.setAttr offset "worldMatrix" mtx
    | none => s1
  let s3 := match s2.parentOf transform_node with
    | some p => s2.reparent offset p
    | none => s2
  let s4 := s3.reparent transform_node offset
  (offset, s4)

/-! ### `module_core.py`: `RigModule`

Naming scheme from `RigModule.__init__` (lines 183-207). -/

/-- `self.root_name = f"{name}_{self.SUFFIX_MODULE}" if name else self.SUFFIX_MODULE`. -/
def moduleRootName (name : String) : String :=
  if name ≠ "" then name ++ "_module" else "module"

/-- `self.name_set = f"{name}_{self.SUFFIX_SETS}" if name else self.SUFFIX_SETS`. -/
def moduleSetName (name : String) : String :=
  if name ≠ "" then name ++ "_sets" else "sets"

/-- `self.name_vis_grp = f"{name}_{self.GRP_VIS}"`. -/
def visGrpName (name : String) : String := name ++ "_visible_grp"

/-- `self.name_hid_grp = f"{name}_{self.GRP_HID}"`. -/
def hidGrpName (name : String) : String := name ++ "_hidden_grp"

/-- `self.control_set_name = f"{self.name}_control_set"`. -/
def controlSetName (name : String) : String := name ++ "_control_set"

/-- `self.joint_set_name = f"{self.name}_joint_set"`. -/
def jointSetName (name : String) : String := name ++ "_joint_set"

/-- `self.deformer_set_name = f"{self.name}_deformer_set"`. -/
def deformerSetName (name : String) : String := name ++ "_deformer_set"

/-- Modelled from the spec: `get_or_create_transform(name, parent)` is
imported by `module_core.py` from `src.utility.transform_utils` but is not
defined anywhere under `src/`.  Per the spec (§4.2, §5: the
create-if-absent-by-name pattern, "re-uses existing same-named nodes"), it
returns the existing node of that name if one exists and otherwise creates
a transform with that name under the given parent. -/
def get_or_create_transform (name : String) (parent : Option String) (s : Scene) :
    Scene :=
  if s.objExists name then s else s.createTransform name parent

/-- `get_or_create_set(set_name, *members)` (module_core.py lines 33-48):
re-use or create the object set of that name, then add the given members. -/
def get_or_create_set (set_name : String) (members : List String) (s : Scene) :
    Scene :=
  let s1 := if s.objExists set_name then s else s.createSet set_name
  members.foldl (fun acc obj => acc.addMember set_name obj) s1

/-- The in-memory attributes of a `RigModule` instance
(`RigModule.__init__`, lines 183-207). -/
structure RigModuleMem where
  grp_root : Option String
  grp_vis : Option String
  grp_hid : Option String
  root_set : Option String
  control_set : Option String
  joint_set : Option String
  deformer_set : Option String
  controls : List String
  joints : List String
  deformers : List String
  systems : List String
deriving DecidableEq, Repr

/-- A freshly constructed `RigModule(name)`: no groups or sets resolved,
empty ledgers. -/
def RigModuleMem.init : RigModuleMem :=
  ⟨none, none, none, none, none, none, none, [], [], [], []⟩

/-- `RigModule.create_structure` (lines 209-220):

    self.grp_root = get_or_create_transform(self.root_name, None)
    self.grp_vis = get_or_create_transform(self.name_vis_grp, self.grp_root)
    self.grp_hid = get_or_create_transform(self.name_hid_grp, self.grp_root)
    self.grp_hid.it.set(0)
    self.grp_hid.v.set(0)
    self.root_set = get_or_create_set(self.name_set)

Note the two attribute writes run unconditionally, whether the hidden group
was created or re-used. -/
def create_structure (name : String) (m : RigModuleMem) (s : Scene) :
    RigModuleMem × Scene :=
  let root := moduleRootName name
  let s1 := get_or_create_transform root none s
  let s2 := get_or_create_transform (visGrpName name) (some root) s1
  let s3 := get_or_create_transform (hidGrpName name) (some root) s2
  let s4 := (s3.setAttr (hidGrpName name) "it" 0).setAttr (hidGrpName name) "v" 0
  let s5 := get_or_create_set (moduleSetName name) [] s4
  ({ m with
      grp_root := some root
      grp_vis := some (visGrpName name)
      grp_hid := some (hidGrpName name)
      root_set := some (moduleSetName name) }, s5)

/-- `RigModule.build` (lines 313-314): `self.create_structure()`. -/
def build (name : String) (m : RigModuleMem) (s : Scene) : RigModuleMem × Scene :=
  create_structure name m s

/-- `RigModule.register_sub_system(system_grp, visible)` (lines 222-230):

    parent = self.grp_vis if visible else self.grp_hid
    self.systems.append(system_grp)
    pm.parent(system_grp, parent)

The append is unconditional. -/
def register_sub_system (system_grp : String) (visible : Bool)
    (m : RigModuleMem) (s : Scene) : RigModuleMem × Scene :=
  let parent := if visible then m.grp_vis else m.grp_hid
  let m' := { m with systems := m.systems ++ [system_grp] }
  let s' := match parent with
    | some p => s.reparent system_grp p
    | none => s
  (m', s')

/-- `RigModule.register_controls(*controls)` (lines 232-241):

    [self.controls.append(control) for control in controls if control not in self.controls]
    self.control_set = get_or_create_set(self.control_set_name)
    [self.control_set.addMember(control) for control in controls]
    self.root_set.addMember(self.control_set)
-/
def register_controls (name : String) (controls : List String)
    (m : RigModuleMem) (s : Scene) : RigModuleMem × Scene :=
  let m' := { m with
    controls := controls.foldl addUnique m.controls
    control_set := some (controlSetName name) }
  let s1 := get_or_create_set (controlSetName name) [] s
  let s2 := controls.foldl (fun acc c => acc.addMember (controlSetName name) c) s1
  let s3 := match m.root_set with
    | some rs => s2.addMember rs (controlSetName name)
    | none => s2
  (m', s3)

/-- `RigModule.register_joints(*joints)` (lines 243-252): same shape as
`register_controls`, over the joint set. -/
def register_joints (name : String) (joints : List String)
    (m : RigModuleMem) (s : Scene) : RigModuleMem × Scene :=
  let m' := { m with
    joints := joints.foldl addUnique m.joints
    joint_set := some (jointSetName name) }
  let s1 := get_or_create_set (jointSetName name) [] s
  let s2 := joints.foldl (fun acc c => acc.addMember (jointSetName name) c) s1
  let s3 := match m.root_set with
    | some rs => s2.addMember rs (jointSetName name)
    | none => s2
  (m', s3)

/-- `RigModule.register_deformers(*deformers)` (lines 254-263): same shape as
`register_controls`, over the deformer set. -/
def register_deformers (name : String) (deformers : List String)
    (m : RigModuleMem) (s : Scene) : RigModuleMem × Scene :=
  let m' := { m with
    deformers := deformers.foldl addUnique m.deformers
    deformer_set := some (deformerSetName name) }
  let s1 := get_or_create_set (deformerSetName name) [] s
  let s2 := deformers.foldl (fun acc c => acc.addMember (deformerSetName name) c) s1
  let s3 := match m.root_set with
    | some rs => s2.addMember rs (deformerSetName name)
    | none => s2
  (m', s3)

/-- `RigModule.is_module` (lines 279-289):

    all([pm.objExists(self.root_name),
         pm.objExists(f"|{self.root_name}|{self.name_vis_grp}"),
         pm.objExists(f"|{self.root_name}|{self.name_hid_grp}"),
         pm.objExists(self.name_set)])
-/
def is_module (name : String) (s : Scene) : Prop :=
  s.objExists (moduleRootName name) ∧
    s.pathExists2 (moduleRootName name) (visGrpName name) ∧
    s.pathExists2 (moduleRootName name) (hidGrpName name) ∧
    s.objExists (moduleSetName name)

instance (name : String) (s : Scene) : Decidable (is_module name s) := by
  unfold is_module
  infer_instance

/-- Errors raised by `cast()`: the structure-mismatch `ValueError`, or the
node-lookup error `pm.nt.Transform` / `pm.nt.ObjectSet` raise on a missing
name (those lookups never create anything). -/
inductive CastErr where
  | structureMismatch
  | lookupMiss (name : String)
deriving DecidableEq, Repr

/-- `RigModule.cast` (lines 291-311): raise the structure-mismatch
`ValueError` if `is_module()` is false, otherwise resolve the groups and the
root set by name (each lookup raises a different, lookup error if its name
is absent, and never creates anything), then best-effort populate
`controls` / `joints` / `deformers` from the optional sub-sets.  All scene
accesses are reads: the scene is returned unchanged. -/
def castModule (name : String) (m : RigModuleMem) (s : Scene) :
    (Except CastErr RigModuleMem) × Scene :=
  if ¬ is_module name s then (Except.error CastErr.structureMismatch, s)
  else
    let root := moduleRootName name
    let result : Except CastErr RigModuleMem :=
      if root ∉ s.transforms then Except.error (CastErr.lookupMiss root)
      else if ¬ s.pathExists2 root (visGrpName name) then
        Except.error (CastErr.lookupMiss ("|" ++ root ++ "|" ++ visGrpName name))
      else if ¬ s.pathExists2 root (hidGrpName name) then
        Except.error (CastErr.lookupMiss ("|" ++ root ++ "|" ++ hidGrpName name))
      else match s.setMembers (moduleSetName name) with
        | none => Except.error (CastErr.lookupMiss (moduleSetName name))
        | some _ =>
          let m1 := { m with
            grp_root := some root
            grp_vis := some (visGrpName name)
            grp_hid := some (hidGrpName name)
            root_set := some (moduleSetName name) }
          let m2 := if s.objExists (controlSetName name) then
              { m1 with
                control_set := some (controlSetName name)
                controls := (s.setMembers (controlSetName name)).getD [] }
            else m1
          let m3 := if s.objExists (jointSetName name) then
              { m2 with
                joint_set := some (jointSetName name)
                joints := (s.setMembers (jointSetName name)).getD [] }
            else m2
          let m4 := if s.objExists (deformerSetName name) then
              { m3 with
                deformer_set := some (deformerSetName name)
                deformers := (s.setMembers (deformerSetName name)).getD [] }
            else m3
          Except.ok m4
    (result, s)

/-! ### `module_core.py`: `Rig` (lines 50-174) -/

/-- `self.root_name = f"{name}_{self.SUFFIX_RIG}" if name else self.SUFFIX_RIG`. -/
def rigRootName (name : String) : String :=
  if name ≠ "" then name ++ "_rig" else "rig"

/-- `self.set_name = f"{self.root_name}_{self.SUFFIX_SETS}"`. -/
def rigSetName (name : String) : String := rigRootName name ++ "_sets"

/-- `Rig.is_rig` (lines 153-162):

    all([pm.objExists(self.root_name),
         pm.objExists(f"|{self.root_name}|{self.GRP_GEO}"),
         pm.objExists(f"|{self.root_name}|{self.GRP_MODULES}")])

Only the root, `Geometry` and `rig_modules` are required; the
`visible_modules` / `hidden_modules` sub-groups and the rig set are not
checked. -/
def is_rig (name : String) (s : Scene) : Prop :=
  s.objExists (rigRootName name) ∧
    s.pathExists2 (rigRootName name) "Geometry" ∧
    s.pathExists2 (rigRootName name) "rig_modules"

instance (name : String) (s : Scene) : Decidable (is_rig name s) := by
  unfold is_rig
  infer_instance

/-- The in-memory group attributes a `Rig.cast` resolves. -/
structure RigMem where
  grp_root : Option String
  grp_geo : Option String
  grp_modules : Option String
  grp_vis : Option String
  grp_hid : Option String
  set : Option String
deriving DecidableEq, Repr

/-- `Rig.cast` (lines 164-174): raise the structure-mismatch `ValueError`
iff `is_rig()` is false; otherwise dereference by name the root, `Geometry`,
`rig_modules`, the `visible_modules` / `hidden_modules` sub-groups and the
rig set — lookups that can themselves fail (with a different error) since
`is_rig()` never checked the last three.  All accesses are reads. -/
def castRig (name : String) (s : Scene) : (Except CastErr RigMem) × Scene :=
  if ¬ is_rig name s then (Except.error CastErr.structureMismatch, s)
  else
    let root := rigRootName name
    let result : Except CastErr RigMem :=
      if root ∉ s.transforms then Except.error (CastErr.lookupMiss root)
      else if ¬ s.pathExists2 root "Geometry" then
        Except.error (CastErr.lookupMiss ("|" ++ root ++ "|Geometry"))
      else if ¬ s.pathExists2 root "rig_modules" then
        Except.error (CastErr.lookupMiss ("|" ++ root ++ "|rig_modules"))
      else if ¬ s.pathExists3 root "rig_modules" "visible_modules" then
        Except.error (CastErr.lookupMiss
          ("|" ++ root ++ "|rig_modules|visible_modules"))
      else if ¬ s.pathExists3 root "rig_modules" "hidden_modules" then
        Except.error (CastErr.lookupMiss
          ("|" ++ root ++ "|rig_modules|hidden_modules"))
      else match s.setMembers (rigSetName name) with
        | none => Except.error (CastErr.lookupMiss (rigSetName name))
        | some _ =>
          Except.ok { grp_root := some root
                      grp_geo := some "Geometry"
                      grp_modules := some "rig_modules"
                      grp_vis := some "visible_modules"
                      grp_hid := some "hidden_modules"
                      set := some (rigSetName name) }
    (result, s)

/-- The build-and-register scenario of a module: `build()`, then
`register_controls`, `register_joints` and `register_deformers` on the same
instance (the workflow `Ribbon.build` style callers follow). -/
def builtModule (name : String) (cs js ds : List String) (s : Scene) :
    RigModuleMem × Scene :=
  let b := build name RigModuleMem.init s
  let r1 := register_controls name cs b.1 b.2
  let r2 := register_joints name js r1.1 r1.2
  register_deformers name ds r2.1 r2.2

/-- The scene `builtModule` produces when none of the module's generated
names pre-exist: the three groups, the hidden-group attributes, the four
sets and their memberships, written out operation by operation (proved equal
to `builtModule`'s scene under freshness hypotheses below). -/
def builtScene (name : String) (cs js ds : List String) (s : Scene) : Scene :=
  let t1 := s.createTransform (moduleRootName name) none
  let t2 := t1.createTransform (visGrpName name) (some (moduleRootName name))
  let t3 := t2.createTransform (hidGrpName name) (some (moduleRootName name))
  let t4 := (t3.setAttr (hidGrpName name) "it" 0).setAttr (hidGrpName name) "v" 0
  let t5 := t4.createSet (moduleSetName name)
  let t6 := t5.createSet (controlSetName name)
  let t7 := cs.foldl (fun acc c => acc.addMember (controlSetName name) c) t6
  let t8 := t7.addMember (moduleSetName name) (controlSetName name)
  let t9 := t8.createSet (jointSetName name)
  let t10 := js.foldl (fun acc c => acc.addMember (jointSetName name) c) t9
  let t11 := t10.addMember (moduleSetName name) (jointSetName name)
  let t12 := t11.createSet (deformerSetName name)
  let t13 := ds.foldl (fun acc c => acc.addMember (deformerSetName name) c) t12
  t13.addMember (moduleSetName name) (deformerSetName name)

/-- The in-memory module record `builtModule` produces: group and set names
resolved, membership ledgers deduplicated in first-registration order. -/
def builtMem (name : String) (cs js ds : List String) : RigModuleMem :=
  { grp_root := some (moduleRootName name)
    grp_vis := some (visGrpName name)
    grp_hid := some (hidGrpName name)
    root_set := some (moduleSetName name)
    control_set := some (controlSetName name)
    joint_set := some (jointSetName name)
    deformer_set := some (deformerSetName name)
    controls := cs.foldl addUnique []
    joints := js.foldl addUnique []
    deformers := ds.foldl addUnique []
    systems := [] }

/-! ### Demonstration scenes used by concrete counterexamples -/

/-- A scene holding exactly an already-built module `m`, with a user
override `v = 1` applied afterwards to its hidden group. -/
def c7Scene : Scene :=
  ((build "m" RigModuleMem.init Scene.empty).2).setAttr (hidGrpName "m") "v" 1

/-- A scene holding a single top-level transform `ctrl`. -/
def c8Scene : Scene := Scene.empty.createTransform "ctrl" none

/-- The result of a first `create_offset("_root")` on `ctrl`. -/
def c8First : String × Scene := create_offset "ctrl" "_root" c8Scene

/-- The result of a second `create_offset("_root")` on the same control. -/
def c8Second : String × Scene := create_offset "ctrl" "_root" c8First.2

/-- A built module scene for the `register_sub_system` counterexample. -/
def c9Built : RigModuleMem × Scene := build "m" RigModuleMem.init Scene.empty

/-- `register_sub_system("sysA")` called once on the built module. -/
def c9Once : RigModuleMem × Scene :=
  register_sub_system "sysA" true c9Built.1 c9Built.2

/-- `register_sub_system("sysA")` called twice on the built module. -/
def c9Twice : RigModuleMem × Scene :=
  register_sub_system "sysA" true c9Once.1 c9Once.2

/-- A scene with exactly the three nodes `Rig.is_rig` checks — `a_rig`,
`|a_rig|Geometry`, `|a_rig|rig_modules` — and none of the sub-groups or the
rig set. -/
def c10Scene : Scene :=
  ((Scene.empty.createTransform "a_rig" none).createTransform
      "Geometry" (some "a_rig")).createTransform "rig_modules" (some "a_rig")

/-!
## Theorems

Generic lemmas about the association-list primitives and the scene
operations, followed by one theorem per claim.
-/

theorem lookupKey_setKey_self {κ α : Type} [DecidableEq κ]
    (l : List (κ × α)) (k : κ) (v : α) : lookupKey (setKey l k v) k = some v := by
  induction l with
  | nil => simp [setKey, lookupKey]
  | cons e rest ih =>
      by_cases h : e.1 = k
      · simp [setKey, h, lookupKey]
      · simp [setKey, h, lookupKey, ih]

theorem lookupKey_setKey_ne {κ α : Type} [DecidableEq κ]
    (l : List (κ × α)) {k k' : κ} (v : α) (h : k' ≠ k) :
    lookupKey (setKey l k v) k' = lookupKey l k' := by
  induction l with
  | nil => simp [setKey, lookupKey, Ne.symm h]
  | cons e rest ih =>
      by_cases he : e.1 = k
      · simp [setKey, he, lookupKey, Ne.symm h]
      · simp [setKey, he, lookupKey, ih]

theorem setKey_self_of_lookup {κ α : Type} [DecidableEq κ]
    (l : List (κ × α)) (k : κ) (v : α) (h : lookupKey l k = some v) :
    setKey l k v = l := by
  induction l with
  | nil => simp [lookupKey] at h
  | cons e rest ih =>
      obtain ⟨ek, ev⟩ := e
      by_cases he : ek = k
      · simp [lookupKey, he] at h
        simp [setKey, he, h]
      · simp [lookupKey, he] at h
        simp [setKey, he, ih h]

theorem lookupKey_updateKey_self {κ α : Type} [DecidableEq κ]
    (l : List (κ × α)) (k : κ) (f : α → α) :
    lookupKey (updateKey l k f) k = (lookupKey l k).map f := by
  induction l with
  | nil => simp [updateKey, lookupKey]
  | cons e rest ih =>
      by_cases h : e.1 = k
      · simp [updateKey, h, lookupKey]
      · simp [updateKey, h, lookupKey, ih]

theorem lookupKey_updateKey_ne {κ α : Type} [DecidableEq κ]
    (l : List (κ × α)) {k k' : κ} (f : α → α) (h : k' ≠ k) :
    lookupKey (updateKey l k f) k' = lookupKey l k' := by
  induction l with
  | nil => simp [updateKey, lookupKey]
  | cons e rest ih =>
      by_cases he : e.1 = k
      · simp [updateKey, he, lookupKey, Ne.symm h]
      · simp [updateKey, he, lookupKey, ih]

theorem updateKey_map_fst {κ α : Type} [DecidableEq κ]
    (l : List (κ × α)) (k : κ) (f : α → α) :
    (updateKey l k f).map Prod.fst = l.map Prod.fst := by
  induction l with
  | nil => rfl
  | cons e rest ih =>
      by_cases h : e.1 = k
      · simp [updateKey, h]
      · simp [updateKey, h, ih]

theorem lookupKey_append_left {κ α : Type} [DecidableEq κ]
    {l1 : List (κ × α)} (l2 : List (κ × α)) {k : κ} {v : α}
    (h : lookupKey l1 k = some v) : lookupKey (l1 ++ l2) k = some v := by
  induction l1 with
  | nil => simp [lookupKey] at h
  | cons e rest ih =>
      by_cases he : e.1 = k
      · simp [lookupKey, he] at h ⊢
        exact h
      · simp [lookupKey, he] at h ⊢
        exact ih h

theorem lookupKey_append_right {κ α : Type} [DecidableEq κ]
    {l1 : List (κ × α)} (l2 : List (κ × α)) {k : κ}
    (h : lookupKey l1 k = none) : lookupKey (l1 ++ l2) k = lookupKey l2 k := by
  induction l1 with
  | nil => simp
  | cons e rest ih =>
      by_cases he : e.1 = k
      · simp [lookupKey, he] at h
      · simp [lookupKey, he] at h ⊢
        exact ih h

theorem lookupKey_none_of_not_mem_keys {κ α : Type} [DecidableEq κ]
    {l : List (κ × α)} {k : κ} (h : k ∉ l.map Prod.fst) :
    lookupKey l k = none := by
  induction l with
  | nil => rfl
  | cons e rest ih =>
      simp only [List.map_cons, List.mem_cons, not_or] at h
      simp [lookupKey, Ne.symm h.1, ih h.2]

/-- Prepending a common string preserves inequality of suffixes. -/
theorem append_ne_append (p : String) {a b : String} (h : a ≠ b) :
    p ++ a ≠ p ++ b := by
  intro hc
  apply h
  have hd := congrArg String.data hc
  simp only [String.data_append] at hd
  exact String.ext (List.append_cancel_left hd)

/-! Sanity facts tying the reducible rational helpers to the standard
operations, and basic facts about the factor loop. -/

theorem qAdd_eq (a b : ℚ) : qAdd a b = a + b := by
  rw [qAdd]
  conv_rhs => rw [← Rat.num_divInt_den a, ← Rat.num_divInt_den b]
  rw [Rat.divInt_add_divInt _ _ (by exact_mod_cast a.den_nz) (by exact_mod_cast b.den_nz)]

theorem qMul_eq (a b : ℚ) : qMul a b = a * b := by
  rw [qMul]
  conv_rhs => rw [← Rat.num_divInt_den a, ← Rat.num_divInt_den b]
  rw [Rat.divInt_mul_divInt _ _ (by exact_mod_cast a.den_nz) (by exact_mod_cast b.den_nz)]

theorem factorSeq_length (count : Nat) (factor percentage : ℚ) :
    (factorSeq count factor percentage).length = count := by
  induction count generalizing factor with
  | zero => rfl
  | succ c ih => simp [factorSeq, ih]

theorem ribbonFactors_length (n : Nat) : (ribbonFactors n).length = n :=
  factorSeq_length ..

theorem driverFactors_eq_ribbonFactors (n : Nat) :
    driverFactors n = ribbonFactors n := rfl

/-! Scene-operation kit: how each primitive affects each observation. -/

theorem gocT_of_exists {s : Scene} {n : String} (p : Option String)
    (h : s.objExists n) : get_or_create_transform n p s = s := by
  simp [get_or_create_transform, h]

theorem gocT_of_not_exists {s : Scene} {n : String} (p : Option String)
    (h : ¬ s.objExists n) :
    get_or_create_transform n p s = s.createTransform n p := by
  simp [get_or_create_transform, h]

theorem objExists_createTransform (s : Scene) (n : String) (p : Option String)
    (x : String) :
    (s.createTransform n p).objExists x ↔ s.objExists x ∨ x = n := by
  simp [Scene.objExists, Scene.createTransform]
  tauto

theorem gocT_objExists_self (n : String) (p : Option String) (s : Scene) :
    (get_or_create_transform n p s).objExists n := by
  by_cases h : s.objExists n
  · simpa [gocT_of_exists p h]
  · rw [gocT_of_not_exists p h, objExists_createTransform]
    right
    rfl

theorem gocT_objExists_mono {s : Scene} {x : String} (n : String)
    (p : Option String) (h : s.objExists x) :
    (get_or_create_transform n p s).objExists x := by
  by_cases he : s.objExists n
  · rwa [gocT_of_exists p he]
  · rw [gocT_of_not_exists p he, objExists_createTransform]
    left
    exact h

theorem gocT_attrs (n : String) (p : Option String) (s : Scene) :
    (get_or_create_transform n p s).attrs = s.attrs := by
  by_cases h : s.objExists n
  · rw [gocT_of_exists p h]
  · rw [gocT_of_not_exists p h]
    rfl

theorem gocT_sets (n : String) (p : Option String) (s : Scene) :
    (get_or_create_transform n p s).sets = s.sets := by
  by_cases h : s.objExists n
  · rw [gocT_of_exists p h]
  · rw [gocT_of_not_exists p h]
    rfl

theorem gocSet_nil_of_exists {s : Scene} {n : String} (h : s.objExists n) :
    get_or_create_set n [] s = s := by
  simp [get_or_create_set, h]

theorem gocSet_nil_of_not_exists {s : Scene} {n : String} (h : ¬ s.objExists n) :
    get_or_create_set n [] s = s.createSet n := by
  simp [get_or_create_set, h]

theorem objExists_createSet (s : Scene) (n x : String) :
    (s.createSet n).objExists x ↔ s.objExists x ∨ x = n := by
  simp [Scene.objExists, Scene.createSet]
  tauto

theorem gocSet_nil_objExists_self (n : String) (s : Scene) :
    (get_or_create_set n [] s).objExists n := by
  by_cases h : s.objExists n
  · simpa [gocSet_nil_of_exists h]
  · rw [gocSet_nil_of_not_exists h, objExists_createSet]
    right
    rfl

theorem gocSet_nil_objExists_mono {s : Scene} {x : String} (n : String)
    (h : s.objExists x) : (get_or_create_set n [] s).objExists x := by
  by_cases he : s.objExists n
  · rwa [gocSet_nil_of_exists he]
  · rw [gocSet_nil_of_not_exists he, objExists_createSet]
    left
    exact h

theorem gocSet_nil_attrs (n : String) (s : Scene) :
    (get_or_create_set n [] s).attrs = s.attrs := by
  by_cases h : s.objExists n
  · rw [gocSet_nil_of_exists h]
  · rw [gocSet_nil_of_not_exists h]
    rfl

theorem gocSet_nil_transforms (n : String) (s : Scene) :
    (get_or_create_set n [] s).transforms = s.transforms := by
  by_cases h : s.objExists n
  · rw [gocSet_nil_of_exists h]
  · rw [gocSet_nil_of_not_exists h]
    rfl

theorem setAttr_objExists (s : Scene) (n a : String) (v : Int) (x : String) :
    (s.setAttr n a v).objExists x ↔ s.objExists x := Iff.rfl

theorem getAttr_setAttr_self (s : Scene) (n a : String) (v : Int) :
    (s.setAttr n a v).getAttr n a = some v :=
  lookupKey_setKey_self ..

theorem getAttr_setAttr_ne (s : Scene) {n a x b : String} (v : Int)
    (h : (x, b) ≠ (n, a)) : (s.setAttr n a v).getAttr x b = s.getAttr x b :=
  lookupKey_setKey_ne _ _ h

theorem setAttr_of_getAttr {s : Scene} {n a : String} {v : Int}
    (h : s.getAttr n a = some v) : s.setAttr n a v = s := by
  unfold Scene.setAttr
  rw [setKey_self_of_lookup _ _ _ h]

/-! Facts about the scene produced by `RigModule.build`, and the idempotence
of a repeated build. -/

theorem build_scene_facts (name : String) (m : RigModuleMem) (s : Scene) :
    ((build name m s).2.objExists (moduleRootName name) ∧
      (build name m s).2.objExists (visGrpName name) ∧
      (build name m s).2.objExists (hidGrpName name) ∧
      (build name m s).2.objExists (moduleSetName name)) ∧
    ((build name m s).2.getAttr (hidGrpName name) "it" = some 0 ∧
      (build name m s).2.getAttr (hidGrpName name) "v" = some 0) := by
  unfold build create_structure
  refine ⟨⟨?_, ?_, ?_, ?_⟩, ?_, ?_⟩
  · exact gocSet_nil_objExists_mono _ (gocT_objExists_mono _ _
      (gocT_objExists_mono _ _ (gocT_objExists_self _ _ _)))
  · exact gocSet_nil_objExists_mono _ (gocT_objExists_mono _ _
      (gocT_objExists_self _ _ _))
  · exact gocSet_nil_objExists_mono _ (gocT_objExists_self _ _ _)
  · exact gocSet_nil_objExists_self _ _
  · show Scene.getAttr _ _ _ = _
    unfold Scene.getAttr
    rw [gocSet_nil_attrs]
    show ((_ : Scene).setAttr _ _ _).getAttr _ _ = _
    rw [getAttr_setAttr_ne _ _ (by simp), getAttr_setAttr_self]
  · show Scene.getAttr _ _ _ = _
    unfold Scene.getAttr
    rw [gocSet_nil_attrs]
    exact getAttr_setAttr_self ..

theorem create_structure_stable (name : String) (m : RigModuleMem) {s : Scene}
    (h1 : s.objExists (moduleRootName name))
    (h2 : s.objExists (visGrpName name))
    (h3 : s.objExists (hidGrpName name))
    (h4 : s.objExists (moduleSetName name))
    (h5 : s.getAttr (hidGrpName name) "it" = some 0)
    (h6 : s.getAttr (hidGrpName name) "v" = some 0) :
    create_structure name m s =
      ({ m with
          grp_root := some (moduleRootName name)
          grp_vis := some (visGrpName name)
          grp_hid := some (hidGrpName name)
          root_set := some (moduleSetName name) }, s) := by
  unfold create_structure
  dsimp only
  rw [gocT_of_exists _ h1, gocT_of_exists _ h2, gocT_of_exists _ h3,
    setAttr_of_getAttr h5, setAttr_of_getAttr h6, gocSet_nil_of_exists h4]

theorem gocT_nodup {s : Scene} (n : String) (p : Option String)
    (h : s.transforms.Nodup) :
    (get_or_create_transform n p s).transforms.Nodup := by
  by_cases he : s.objExists n
  · rwa [gocT_of_exists p he]
  · rw [gocT_of_not_exists p he]
    have hn : n ∉ s.transforms := fun hc => he (Or.inl hc)
    simp [Scene.createTransform, List.nodup_append, h, hn]

theorem gocT_setsKeys (n : String) (p : Option String) (s : Scene) :
    (get_or_create_transform n p s).sets.map Prod.fst = s.sets.map Prod.fst := by
  rw [gocT_sets]

theorem gocSet_nil_nodup_keys {s : Scene} (n : String)
    (h : (s.sets.map Prod.fst).Nodup) :
    ((get_or_create_set n [] s).sets.map Prod.fst).Nodup := by
  by_cases he : s.objExists n
  · rwa [gocSet_nil_of_exists he]
  · rw [gocSet_nil_of_not_exists he]
    have hn : n ∉ s.sets.map Prod.fst := fun hc => he (Or.inr hc)
    simp [Scene.createSet, List.nodup_append, h, hn]

/-! Kit lemmas for set membership updates and the registration folds. -/

theorem addMember_setMembers_self (s : Scene) (n c : String) :
    (s.addMember n c).setMembers n =
      (s.setMembers n).map (fun ms => addUnique ms c) :=
  lookupKey_updateKey_self ..

theorem addMember_setMembers_ne (s : Scene) {x n : String} (c : String)
    (h : x ≠ n) : (s.addMember n c).setMembers x = s.setMembers x :=
  lookupKey_updateKey_ne _ _ h

theorem addMember_keys (s : Scene) (n c : String) :
    (s.addMember n c).sets.map Prod.fst = s.sets.map Prod.fst :=
  updateKey_map_fst ..

theorem addMember_objExists (s : Scene) (n c x : String) :
    (s.addMember n c).objExists x ↔ s.objExists x := by
  unfold Scene.objExists
  rw [addMember_keys]
  exact Iff.rfl

theorem foldlAM_transforms (cs : List String) (sn : String) (s : Scene) :
    (cs.foldl (fun acc c => acc.addMember sn c) s).transforms = s.transforms := by
  induction cs generalizing s with
  | nil => rfl
  | cons c rest ih => simpa using ih (s.addMember sn c)

theorem foldlAM_parents (cs : List String) (sn : String) (s : Scene) :
    (cs.foldl (fun acc c => acc.addMember sn c) s).parents = s.parents := by
  induction cs generalizing s with
  | nil => rfl
  | cons c rest ih => simpa using ih (s.addMember sn c)

theorem foldlAM_attrs (cs : List String) (sn : String) (s : Scene) :
    (cs.foldl (fun acc c => acc.addMember sn c) s).attrs = s.attrs := by
  induction cs generalizing s with
  | nil => rfl
  | cons c rest ih => simpa using ih (s.addMember sn c)

theorem foldlAM_keys (cs : List String) (sn : String) (s : Scene) :
    (cs.foldl (fun acc c => acc.addMember sn c) s).sets.map Prod.fst =
      s.sets.map Prod.fst := by
  induction cs generalizing s with
  | nil => rfl
  | cons c rest ih =>
      simpa [addMember_keys] using ih (s.addMember sn c)

theorem foldlAM_objExists (cs : List String) (sn : String) (s : Scene)
    (x : String) :
    (cs.foldl (fun acc c => acc.addMember sn c) s).objExists x ↔
      s.objExists x := by
  unfold Scene.objExists
  rw [foldlAM_keys, foldlAM_transforms]

theorem foldlAM_setMembers_self (cs : List String) (sn : String) (s : Scene) :
    (cs.foldl (fun acc c => acc.addMember sn c) s).setMembers sn =
      (s.setMembers sn).map (fun ms => cs.foldl addUnique ms) := by
  induction cs generalizing s with
  | nil =>
      cases h : s.setMembers sn <;> simp [h]
  | cons c rest ih =>
      show (rest.foldl _ (s.addMember sn c)).setMembers sn = _
      rw [ih, addMember_setMembers_self]
      cases h : s.setMembers sn <;> simp [h]

theorem foldlAM_setMembers_ne (cs : List String) {sn x : String} (s : Scene)
    (h : x ≠ sn) :
    (cs.foldl (fun acc c => acc.addMember sn c) s).setMembers x =
      s.setMembers x := by
  induction cs generalizing s with
  | nil => rfl
  | cons c rest ih =>
      show (rest.foldl _ (s.addMember sn c)).setMembers x = _
      rw [ih, addMember_setMembers_ne _ _ h]

theorem createSet_setMembers_self {s : Scene} {n : String}
    (h : s.setMembers n = none) : (s.createSet n).setMembers n = some [] := by
  unfold Scene.createSet Scene.setMembers at *
  rw [lookupKey_append_right _ h]
  simp [lookupKey]

theorem createSet_setMembers_ne (s : Scene) {x n : String} (h : x ≠ n) :
    (s.createSet n).setMembers x = s.setMembers x := by
  unfold Scene.createSet Scene.setMembers
  cases hx : lookupKey s.sets x with
  | some v => exact lookupKey_append_left _ hx
  | none =>
      rw [lookupKey_append_right _ hx]
      simp [lookupKey, Ne.symm h]

theorem setMembers_none_of_not_exists {s : Scene} {n : String}
    (h : ¬ s.objExists n) : s.setMembers n = none := by
  refine lookupKey_none_of_not_mem_keys fun hc => h (Or.inr hc)

theorem createTransform_parentOf_skip {s : Scene} {x : String}
    (n : String) {p : String} (hx : s.parentOf x = none) (hne : n ≠ x) :
    (s.createTransform n (some p)).parentOf x = none := by
  unfold Scene.createTransform Scene.parentOf at *
  rw [lookupKey_append_right _ hx]
  simp [lookupKey, hne]

theorem createTransform_parentOf_self {s : Scene} (n : String) (p : String)
    (hx : s.parentOf n = none) :
    (s.createTransform n (some p)).parentOf n = some p := by
  unfold Scene.createTransform Scene.parentOf at *
  rw [lookupKey_append_right _ hx]
  simp [lookupKey]

theorem createTransform_parentOf_none_parent (s : Scene) (n x : String) :
    (s.createTransform n none).parentOf x = s.parentOf x := rfl

/-- Claim C3 counterexample: `n_joints = 7` is a valid, reachable rail size
(six spans, `section_joints = 0`), yet the accumulated binary64 factors do
not obey the claim: the 5th factor differs from `5/6` and the last factor is
not exactly `1.0` — on the skinning rail and the driver rail alike. -/
theorem uniform_factor_counterexample :
    n_joints 6 0 = 7 ∧ n_ctrl 6 0 = 7 ∧
    (ribbonFactors 7).getLast? ≠ some 1 ∧
    (driverFactors 7).getLast? ≠ some 1 ∧
    (ribbonFactors 7).get? 5 ≠ some (Rat.divInt 5 6) ∧
    (ribbonFactors 7).getLast? = some (Rat.divInt (2 ^ 53 - 1) (2 ^ 53)) := by
  decide

/-- Claim C3 (amended): both rails use the same factor sequence — `n`
accumulated binary64 additions of the rounded increment `fl(1/(n-1))`
starting from `0` — so the first sample of each rail lands at exactly `0.0`;
the last sample equals exactly `1.0` for `n ≤ 6`, but not for every valid
`n` (see the counterexample at `n = 7`). -/
theorem uniform_factor_amended (n : Nat) (h2 : 2 ≤ n) :
    (ribbonFactors n).length = n ∧
    driverFactors n = ribbonFactors n ∧
    (ribbonFactors n).head? = some 0 ∧
    (n ≤ 6 → (ribbonFactors n).getLast? = some 1) := by
  obtain ⟨k, rfl⟩ : ∃ k, n = k + 2 := ⟨n - 2, by omega⟩
  refine ⟨ribbonFactors_length _, rfl, rfl, fun h6 => ?_⟩
  have hk : k ≤ 4 := by omega
  interval_cases k <;> decide

/-- Witness for C3's amended claim at `n = 6`. -/
theorem uniform_factor_amended_witness :
    (ribbonFactors 6).length = 6 ∧
    driverFactors 6 = ribbonFactors 6 ∧
    (ribbonFactors 6).head? = some 0 ∧
    (ribbonFactors 6).getLast? = some 1 :=
  ⟨(uniform_factor_amended 6 (by decide)).1,
   (uniform_factor_amended 6 (by decide)).2.1,
   (uniform_factor_amended 6 (by decide)).2.2.1,
   (uniform_factor_amended 6 (by decide)).2.2.2 (by decide)⟩

/-- Claim C4 counterexample: at iteration `0` of a valid 3-joint rail the
skin follicle's parameters are `U = 0` (the factor) and `V = 0.5` — not
`U = 0.5` as the claim states. -/
theorem follicle_uv_counterexample :
    n_joints 2 0 = 3 ∧
    ((getRibbonFollicles 3).get? 0).map
        (fun p => (p.1.parameterU, p.1.parameterV)) = some (0, mkRat 1 2) ∧
    ((getRibbonFollicles 3).get? 0).map (fun p => p.1.parameterU) ≠
      some (mkRat 1 2) := by
  decide

/-- Claim C4 (amended): at every iteration `i` of the skinning rail, the skin
follicle samples the surface at `(V = 0.5, U = factor_i)` and the reference
follicle at `(V = 1.0, U = factor_i)` — the factor drives the U parameter,
with V held fixed (`createFollicle` assigns `uv_position[0]` to `parameterV`
and `uv_position[1]` to `parameterU`). -/
theorem follicle_uv_amended (n i : Nat) :
    ((getRibbonFollicles n)[i]?).map
        (fun p => (p.1.parameterU, p.1.parameterV, p.2.parameterU, p.2.parameterV)) =
      ((ribbonFactors n)[i]?).map (fun f => (f, mkRat 1 2, f, 1)) := by
  unfold getRibbonFollicles createFollicle
  rw [List.getElem?_map]
  cases (ribbonFactors n)[i]? <;> rfl

/-- Claim C10: `Rig.cast` raises its structure-mismatch `ValueError` exactly
when `is_rig()` is false, i.e. when `<name>_rig`, `|<name>_rig|Geometry` or
`|<name>_rig|rig_modules` is missing; `is_rig` does not require the
`visible_modules` / `hidden_modules` sub-groups or the `<name>_rig_sets`
set, so on a scene with only the three checked nodes `cast()` passes the
`is_rig` gate and then fails dereferencing `visible_modules` with a lookup
error, not the structure-mismatch error.  `cast` never mutates the scene. -/
theorem is_rig_cast_structure (name : String) (s : Scene) :
    ((castRig name s).1 = Except.error CastErr.structureMismatch ↔
      ¬ is_rig name s) ∧
    (castRig name s).2 = s ∧
    is_rig "a" c10Scene ∧
    (castRig "a" c10Scene).1 =
      Except.error (CastErr.lookupMiss "|a_rig|rig_modules|visible_modules") := by
  refine ⟨⟨fun hc => ?_, fun h => by simp [castRig, h]⟩, ?_, by decide, by rfl⟩
  · by_cases h : is_rig name s
    · exfalso
      rw [castRig, if_neg (not_not_intro h)] at hc
      dsimp only at hc
      split_ifs at hc <;> try simp_all
      split at hc <;> simp_all
    · exact h
  · unfold castRig
    split <;> rfl

/-- Claim C5: calling `RigModule.build()` twice with the same name yields the
very same module state and scene as calling it once — no duplicate nodes —
and, starting from a duplicate-free namespace, the built namespace stays
duplicate-free: every group and set is created only when no node of that
name exists, and existing same-named nodes are re-used. -/
theorem build_twice_idempotent (name : String) (m : RigModuleMem) (s : Scene)
    (hnd : s.transforms.Nodup) (hks : (s.sets.map Prod.fst).Nodup) :
    build name (build name m s).1 (build name m s).2 = build name m s ∧
    (build name m s).2.transforms.Nodup ∧
    ((build name m s).2.sets.map Prod.fst).Nodup := by
  obtain ⟨⟨h1, h2, h3, h4⟩, h5, h6⟩ := build_scene_facts name m s
  refine ⟨?_, ?_, ?_⟩
  · show create_structure name (build name m s).1 (build name m s).2 =
      build name m s
    rw [create_structure_stable name _ h1 h2 h3 h4 h5 h6]
    rfl
  · show ((create_structure name m s).2.transforms).Nodup
    unfold create_structure
    dsimp only
    rw [gocSet_nil_transforms]
    exact gocT_nodup _ _ (gocT_nodup _ _ (gocT_nodup _ _ hnd))
  · show (((create_structure name m s).2.sets).map Prod.fst).Nodup
    unfold create_structure
    dsimp only
    apply gocSet_nil_nodup_keys
    show (((get_or_create_transform (hidGrpName name) _ _).sets).map Prod.fst).Nodup
    rw [gocT_setsKeys, gocT_setsKeys, gocT_setsKeys]
    exact hks

/-- Witness for C5 at a concrete module name and the empty scene. -/
theorem build_twice_idempotent_witness :
    build "mod" (build "mod" RigModuleMem.init Scene.empty).1
        (build "mod" RigModuleMem.init Scene.empty).2 =
      build "mod" RigModuleMem.init Scene.empty ∧
    (build "mod" RigModuleMem.init Scene.empty).2.transforms.Nodup ∧
    ((build "mod" RigModuleMem.init Scene.empty).2.sets.map Prod.fst).Nodup :=
  build_twice_idempotent "mod" RigModuleMem.init Scene.empty
    (by decide) (by decide)

/-- Claim C7 (amended): the hidden group's inherits-transform and visibility
attributes are disabled by every `create_structure()` call — on creation and
on re-use alike — so a repeated build overwrites any user override on them. -/
theorem hidden_group_attrs_every_build (name : String) (m : RigModuleMem)
    (s : Scene) :
    (create_structure name m s).2.getAttr (hidGrpName name) "it" = some 0 ∧
    (create_structure name m s).2.getAttr (hidGrpName name) "v" = some 0 :=
  (build_scene_facts name m s).2

/-- Claim C7 counterexample: on a scene holding an already-built module `m`
whose hidden group's visibility was overridden to `1`, re-running
`create_structure` re-applies `v = 0`: the override is not preserved, so the
attributes are not applied "only upon creation". -/
theorem hidden_group_attrs_counterexample :
    c7Scene.getAttr (hidGrpName "m") "v" = some 1 ∧
    (create_structure "m" RigModuleMem.init c7Scene).2.getAttr
        (hidGrpName "m") "v" = some 0 ∧
    (1 : Int) ≠ 0 := by
  decide

/-- Claim C9 (amended): `register_sub_system` appends to the `systems` ledger
unconditionally; calling it twice with the same node leaves two entries for
that node, not one. -/
theorem register_sub_system_appends (grp : String) (visible : Bool)
    (m : RigModuleMem) (s : Scene) :
    (register_sub_system grp visible
        (register_sub_system grp visible m s).1
        (register_sub_system grp visible m s).2).1.systems =
      m.systems ++ [grp, grp] := by
  simp [register_sub_system]

/-- Claim C9 counterexample: registering the sub-system `sysA` twice on a
freshly built module leaves two ledger entries for it, not exactly one. -/
theorem register_sub_system_counterexample :
    c9Twice.1.systems = ["sysA", "sysA"] ∧
    c9Twice.1.systems.count "sysA" = 2 ∧ (2 : Nat) ≠ 1 := by
  decide

/-- Claim C8 (amended): `create_offset` never re-uses an existing offset: every
call creates exactly one new transform (under a uniquified name when
`<control><suffix>` is taken) and returns that new node. -/
theorem create_offset_always_creates (node suffix : String) (s : Scene) :
    (create_offset node suffix s).2.transforms =
      s.transforms ++ [(create_offset node suffix s).1] := by
  unfold create_offset Scene.createTransformNode
  dsimp only
  split <;> split <;> rfl

/-- Claim C8 counterexample: with the offset `ctrl_root` already present from
a first `create_offset("_root")` call, a second call with the same suffix
does not return the existing offset: it creates and returns a new node
`ctrl_root1`, stacked between `ctrl_root` and the control. -/
theorem create_offset_counterexample :
    c8First.1 = "ctrl_root" ∧
    c8Second.1 = "ctrl_root1" ∧
    c8Second.1 ≠ c8First.1 ∧
    c8Second.2.transforms = ["ctrl", "ctrl_root", "ctrl_root1"] ∧
    c8Second.2.parentOf "ctrl" = some "ctrl_root1" ∧
    c8Second.2.parentOf "ctrl_root1" = some "ctrl_root" := by
  decide

/-- Claim C2: on a zero-span surface both derived counts degenerate
(`n_joints = 1` for every `section_joints`), and the build is not rejected
by a configuration error before scene mutation: `getRibbon` first creates
four groups and only then raises a `ZeroDivisionError` from
`1.0 / (n_joints - 1)`. -/
theorem ribbon_zero_span_divergence :
    n_joints 0 0 = 1 ∧ n_joints 0 5 = 1 ∧
    ribbonBuildPrefix "m" (n_joints 0 0) =
      (["m_skinning", "m_follicles", "m_FOL_static", "m_FOL_dynamic"],
        some PyErr.zeroDivisionError) ∧
    (ribbonBuildPrefix "m" (n_joints 0 0)).1 ≠ [] ∧
    (ribbonBuildPrefix "m" (n_joints 0 0)).2 ≠ some PyErr.configurationError := by
  decide

/-- Claim C1: for a surface with `S` spans, nonzero `section_joints = K`
gives `n_joints = S*K + S + 1` and zero gives `n_joints = S + 1`; nonzero
`ctrl_quantity = C` gives `n_ctrl = C` and zero gives `n_ctrl = S + 1`. -/
theorem ribbon_count_invariants (S K C : Int) :
    (K ≠ 0 → n_joints S K = S * K + S + 1) ∧
    (K = 0 → n_joints S K = S + 1) ∧
    (C ≠ 0 → n_ctrl S C = C) ∧
    (C = 0 → n_ctrl S C = S + 1) := by
  refine ⟨fun h => ?_, fun h => ?_, fun h => ?_, fun h => ?_⟩ <;>
    simp [n_joints, n_ctrl, h]

/-- Witness for C1: the spec's end-to-end scenario, 4 spans with
`section_joints = 1`, plus the zero cases. -/
theorem ribbon_count_invariants_witness :
    n_joints 4 1 = 4 * 1 + 4 + 1 ∧ n_joints 4 0 = 4 + 1 ∧
    n_ctrl 4 3 = 3 ∧ n_ctrl 4 0 = 4 + 1 :=
  ⟨(ribbon_count_invariants 4 1 3).1 (by decide),
   (ribbon_count_invariants 4 0 3).2.1 rfl,
   (ribbon_count_invariants 4 1 3).2.2.1 (by decide),
   (ribbon_count_invariants 4 1 0).2.2.2 rfl⟩


/-! Kit for Claim C6: projection lemmas for each scene operation, shields for
`objExists` across operations, and the characterization of `builtModule`. -/

theorem addMember_transforms (s : Scene) (n c : String) :
    (s.addMember n c).transforms = s.transforms := rfl

theorem addMember_parents (s : Scene) (n c : String) :
    (s.addMember n c).parents = s.parents := rfl

theorem createSet_transforms (s : Scene) (n : String) :
    (s.createSet n).transforms = s.transforms := rfl

theorem createSet_parents (s : Scene) (n : String) :
    (s.createSet n).parents = s.parents := rfl

theorem createSet_keys (s : Scene) (n : String) :
    (s.createSet n).sets.map Prod.fst = s.sets.map Prod.fst ++ [n] := by
  simp [Scene.createSet]

theorem setAttr_transforms (s : Scene) (n a : String) (v : Int) :
    (s.setAttr n a v).transforms = s.transforms := rfl

theorem setAttr_parents (s : Scene) (n a : String) (v : Int) :
    (s.setAttr n a v).parents = s.parents := rfl

theorem setAttr_keys (s : Scene) (n a : String) (v : Int) :
    (s.setAttr n a v).sets.map Prod.fst = s.sets.map Prod.fst := rfl

theorem createTransform_transforms (s : Scene) (n : String) (p : Option String) :
    (s.createTransform n p).transforms = s.transforms ++ [n] := rfl

theorem createTransform_parents_some (s : Scene) (n p : String) :
    (s.createTransform n (some p)).parents = s.parents ++ [(n, p)] := rfl

theorem createTransform_parents_none (s : Scene) (n : String) :
    (s.createTransform n none).parents = s.parents := rfl

theorem createTransform_keys (s : Scene) (n : String) (p : Option String) :
    (s.createTransform n p).sets.map Prod.fst = s.sets.map Prod.fst := rfl

theorem not_objExists_createTransform {s : Scene} {x : String}
    (n : String) (p : Option String) (h1 : ¬ s.objExists x) (h2 : x ≠ n) :
    ¬ (s.createTransform n p).objExists x := fun hc => by
  rcases (objExists_createTransform s n p x).1 hc with h | h
  exacts [h1 h, h2 h]

theorem not_objExists_createSet {s : Scene} {x : String}
    (n : String) (h1 : ¬ s.objExists x) (h2 : x ≠ n) :
    ¬ (s.createSet n).objExists x := fun hc => by
  rcases (objExists_createSet s n x).1 hc with h | h
  exacts [h1 h, h2 h]

theorem not_objExists_addMember {s : Scene} {x : String} (n c : String)
    (h : ¬ s.objExists x) : ¬ (s.addMember n c).objExists x :=
  fun hc => h ((addMember_objExists s n c x).1 hc)

theorem not_objExists_foldlAM {s : Scene} {x : String}
    (cs : List String) (sn : String) (h : ¬ s.objExists x) :
    ¬ (cs.foldl (fun acc c => acc.addMember sn c) s).objExists x :=
  fun hc => h ((foldlAM_objExists cs sn s x).1 hc)

/-- For a nonempty module name, the seven generated names are pairwise
distinct (their suffixes differ). -/
theorem module_names_ne (name : String) (h : name ≠ "") :
    visGrpName name ≠ moduleRootName name ∧
    hidGrpName name ≠ moduleRootName name ∧
    hidGrpName name ≠ visGrpName name ∧
    moduleSetName name ≠ moduleRootName name ∧
    moduleSetName name ≠ visGrpName name ∧
    moduleSetName name ≠ hidGrpName name ∧
    controlSetName name ≠ moduleRootName name ∧
    controlSetName name ≠ visGrpName name ∧
    controlSetName name ≠ hidGrpName name ∧
    controlSetName name ≠ moduleSetName name ∧
    jointSetName name ≠ moduleRootName name ∧
    jointSetName name ≠ visGrpName name ∧
    jointSetName name ≠ hidGrpName name ∧
    jointSetName name ≠ moduleSetName name ∧
    jointSetName name ≠ controlSetName name ∧
    deformerSetName name ≠ moduleRootName name ∧
    deformerSetName name ≠ visGrpName name ∧
    deformerSetName name ≠ hidGrpName name ∧
    deformerSetName name ≠ moduleSetName name ∧
    deformerSetName name ≠ controlSetName name ∧
    deformerSetName name ≠ jointSetName name := by
  simp only [moduleRootName, moduleSetName, visGrpName, hidGrpName,
    controlSetName, jointSetName, deformerSetName, h, if_true,
    ne_eq, not_false_eq_true, ite_true]
  refine ⟨?_, ?_, ?_, ?_, ?_, ?_, ?_, ?_, ?_, ?_, ?_, ?_, ?_, ?_, ?_, ?_,
    ?_, ?_, ?_, ?_, ?_⟩ <;>
    exact append_ne_append name (by decide)

/-- `RigModule.build` on a scene where the three group names and the module
set name are free: every get-or-create takes its create branch. -/
theorem build_fresh_eq (name : String) (m : RigModuleMem) (t : Scene)
    (h1 : ¬ t.objExists (moduleRootName name))
    (h2 : ¬ (t.createTransform (moduleRootName name) none).objExists
      (visGrpName name))
    (h3 : ¬ ((t.createTransform (moduleRootName name) none).createTransform
      (visGrpName name) (some (moduleRootName name))).objExists
      (hidGrpName name))
    (h4 : ¬ (((((t.createTransform (moduleRootName name)
      none).createTransform (visGrpName name)
      (some (moduleRootName name))).createTransform (hidGrpName name)
      (some (moduleRootName name))).setAttr (hidGrpName name) "it" 0).setAttr
      (hidGrpName name) "v" 0).objExists (moduleSetName name)) :
    build name m t =
      ({ m with
          grp_root := some (moduleRootName name)
          grp_vis := some (visGrpName name)
          grp_hid := some (hidGrpName name)
          root_set := some (moduleSetName name) },
        (((((t.createTransform (moduleRootName name) none).createTransform
          (visGrpName name) (some (moduleRootName name))).createTransform
          (hidGrpName name) (some (moduleRootName name))).setAttr
          (hidGrpName name) "it" 0).setAttr (hidGrpName name) "v"
          0).createSet (moduleSetName name)) := by
  unfold build create_structure
  dsimp only
  rw [gocT_of_not_exists _ h1, gocT_of_not_exists _ h2, gocT_of_not_exists _ h3,
    gocSet_nil_of_not_exists h4]

/-- `register_controls` on an instance whose root set is resolved and a scene
where the control-set name is free. -/
theorem regControls_eq (name : String) (cs : List String) (m : RigModuleMem)
    (t : Scene) (hmrs : m.root_set = some (moduleSetName name))
    (hc : ¬ t.objExists (controlSetName name)) :
    register_controls name cs m t =
      ({ m with
          controls := cs.foldl addUnique m.controls
          control_set := some (controlSetName name) },
        (cs.foldl (fun acc c => acc.addMember (controlSetName name) c)
            (t.createSet (controlSetName name))).addMember
          (moduleSetName name) (controlSetName name)) := by
  unfold register_controls
  dsimp only
  rw [gocSet_nil_of_not_exists hc, hmrs]

/-- `register_joints`, same shape. -/
theorem regJoints_eq (name : String) (js : List String) (m : RigModuleMem)
    (t : Scene) (hmrs : m.root_set = some (moduleSetName name))
    (hc : ¬ t.objExists (jointSetName name)) :
    register_joints name js m t =
      ({ m with
          joints := js.foldl addUnique m.joints
          joint_set := some (jointSetName name) },
        (js.foldl (fun acc c => acc.addMember (jointSetName name) c)
            (t.createSet (jointSetName name))).addMember
          (moduleSetName name) (jointSetName name)) := by
  unfold register_joints
  dsimp only
  rw [gocSet_nil_of_not_exists hc, hmrs]

/-- `register_deformers`, same shape. -/
theorem regDeformers_eq (name : String) (ds : List String) (m : RigModuleMem)
    (t : Scene) (hmrs : m.root_set = some (moduleSetName name))
    (hc : ¬ t.objExists (deformerSetName name)) :
    register_deformers name ds m t =
      ({ m with
          deformers := ds.foldl addUnique m.deformers
          deformer_set := some (deformerSetName name) },
        (ds.foldl (fun acc c => acc.addMember (deformerSetName name) c)
            (t.createSet (deformerSetName name))).addMember
          (moduleSetName name) (deformerSetName name)) := by
  unfold register_deformers
  dsimp only
  rw [gocSet_nil_of_not_exists hc, hmrs]

/-- Freshness of a name survives the three group creations of
`create_structure` when it differs from all three group names. -/
theorem not_objExists_groups {t : Scene} {x : String} (name : String)
    (hx : ¬ t.objExists x)
    (nR : x ≠ moduleRootName name) (nV : x ≠ visGrpName name)
    (nH : x ≠ hidGrpName name) :
    ¬ (((t.createTransform (moduleRootName name) none).createTransform
      (visGrpName name) (some (moduleRootName name))).createTransform
      (hidGrpName name) (some (moduleRootName name))).objExists x :=
  not_objExists_createTransform _ _ (not_objExists_createTransform _ _
    (not_objExists_createTransform _ _ hx nR) nV) nH

/-- Under the freshness hypotheses, `builtModule` produces exactly the
written-out scene and module record. -/
theorem builtModule_eq (name : String) (cs js ds : List String) (s : Scene)
    (hname : name ≠ "")
    (hR : ¬ s.objExists (moduleRootName name))
    (hV : ¬ s.objExists (visGrpName name))
    (hH : ¬ s.objExists (hidGrpName name))
    (hMS : ¬ s.objExists (moduleSetName name))
    (hCS : ¬ s.objExists (controlSetName name))
    (hJS : ¬ s.objExists (jointSetName name))
    (hDS : ¬ s.objExists (deformerSetName name)) :
    builtModule name cs js ds s =
      (builtMem name cs js ds, builtScene name cs js ds s) := by
  obtain ⟨neVR, neHR, neHV, neMR, neMV, neMH, neCR, neCV, neCH, neCM,
    neJR, neJV, neJH, neJM, neJC, neDR, neDV, neDH, neDM, neDC, neDJ⟩ :=
    module_names_ne name hname
  have e1 := build_fresh_eq name RigModuleMem.init s hR
    (not_objExists_createTransform (moduleRootName name) none hV neVR)
    (not_objExists_createTransform (visGrpName name) (some (moduleRootName name))
      (not_objExists_createTransform (moduleRootName name) none hH neHR) neHV)
    (not_objExists_groups name hMS neMR neMV neMH)
  have e2 := regControls_eq name cs (build name RigModuleMem.init s).1
    (build name RigModuleMem.init s).2 (by rw [e1]) (by
      rw [e1]
      exact not_objExists_createSet (moduleSetName name)
        (not_objExists_groups name hCS neCR neCV neCH) neCM)
  have e3 := regJoints_eq name js
    (register_controls name cs (build name RigModuleMem.init s).1
      (build name RigModuleMem.init s).2).1
    (register_controls name cs (build name RigModuleMem.init s).1
      (build name RigModuleMem.init s).2).2
    (by rw [e2, e1]) (by
      rw [e2]
      refine not_objExists_addMember _ _ (not_objExists_foldlAM _ _
        (not_objExists_createSet (controlSetName name) ?_ neJC))
      rw [e1]
      exact not_objExists_createSet (moduleSetName name)
        (not_objExists_groups name hJS neJR neJV neJH) neJM)
  have e4 := regDeformers_eq name ds
    (register_joints name js
      (register_controls name cs (build name RigModuleMem.init s).1
        (build name RigModuleMem.init s).2).1
      (register_controls name cs (build name RigModuleMem.init s).1
        (build name RigModuleMem.init s).2).2).1
    (register_joints name js
      (register_controls name cs (build name RigModuleMem.init s).1
        (build name RigModuleMem.init s).2).1
      (register_controls name cs (build name RigModuleMem.init s).1
        (build name RigModuleMem.init s).2).2).2
    (by rw [e3, e2, e1]) (by
      rw [e3]
      refine not_objExists_addMember _ _ (not_objExists_foldlAM _ _
        (not_objExists_createSet (jointSetName name) ?_ neDJ))
      rw [e2]
      refine not_objExists_addMember _ _ (not_objExists_foldlAM _ _
        (not_objExists_createSet (controlSetName name) ?_ neDC))
      rw [e1]
      exact not_objExists_createSet (moduleSetName name)
        (not_objExists_groups name hDS neDR neDV neDH) neDM)
  show register_deformers name ds _ _ = _
  rw [e4, e3, e2, e1]
  rfl

theorem builtScene_transforms (name : String) (cs js ds : List String)
    (s : Scene) :
    (builtScene name cs js ds s).transforms =
      ((s.transforms ++ [moduleRootName name]) ++ [visGrpName name]) ++
        [hidGrpName name] := by
  unfold builtScene
  dsimp only
  simp only [addMember_transforms, foldlAM_transforms, createSet_transforms,
    setAttr_transforms, createTransform_transforms]

theorem builtScene_parents (name : String) (cs js ds : List String)
    (s : Scene) :
    (builtScene name cs js ds s).parents =
      s.parents ++ [(visGrpName name, moduleRootName name),
        (hidGrpName name, moduleRootName name)] := by
  unfold builtScene
  dsimp only
  simp only [addMember_parents, foldlAM_parents, createSet_parents,
    setAttr_parents, createTransform_parents_some, createTransform_parents_none]
  rw [List.append_assoc]
  rfl

theorem builtScene_keys (name : String) (cs js ds : List String) (s : Scene) :
    (builtScene name cs js ds s).sets.map Prod.fst =
      s.sets.map Prod.fst ++ [moduleSetName name] ++ [controlSetName name] ++
        [jointSetName name] ++ [deformerSetName name] := by
  unfold builtScene
  dsimp only
  simp only [addMember_keys, foldlAM_keys, createSet_keys, setAttr_keys,
    createTransform_keys]


theorem setAttr_setMembers (s : Scene) (n a : String) (v : Int) (x : String) :
    (s.setAttr n a v).setMembers x = s.setMembers x := rfl

theorem createTransform_setMembers (s : Scene) (n : String) (p : Option String)
    (x : String) : (s.createTransform n p).setMembers x = s.setMembers x := rfl

theorem builtScene_setMembers_MS (name : String) (cs js ds : List String)
    (s : Scene) (hname : name ≠ "")
    (hMS : ¬ s.objExists (moduleSetName name)) :
    (builtScene name cs js ds s).setMembers (moduleSetName name) =
      some (addUnique (addUnique (addUnique [] (controlSetName name))
        (jointSetName name)) (deformerSetName name)) := by
  obtain ⟨neVR, neHR, neHV, neMR, neMV, neMH, neCR, neCV, neCH, neCM,
    neJR, neJV, neJH, neJM, neJC, neDR, neDV, neDH, neDM, neDC, neDJ⟩ :=
    module_names_ne name hname
  unfold builtScene
  dsimp only
  rw [addMember_setMembers_self, foldlAM_setMembers_ne _ _ (Ne.symm neDM),
    createSet_setMembers_ne _ (Ne.symm neDM), addMember_setMembers_self,
    foldlAM_setMembers_ne _ _ (Ne.symm neJM),
    createSet_setMembers_ne _ (Ne.symm neJM), addMember_setMembers_self,
    foldlAM_setMembers_ne _ _ (Ne.symm neCM),
    createSet_setMembers_ne _ (Ne.symm neCM), createSet_setMembers_self]
  · rfl
  · simp only [setAttr_setMembers, createTransform_setMembers]
    exact setMembers_none_of_not_exists hMS

theorem builtScene_setMembers_CS (name : String) (cs js ds : List String)
    (s : Scene) (hname : name ≠ "")
    (hCS : ¬ s.objExists (controlSetName name)) :
    (builtScene name cs js ds s).setMembers (controlSetName name) =
      some (cs.foldl addUnique []) := by
  obtain ⟨neVR, neHR, neHV, neMR, neMV, neMH, neCR, neCV, neCH, neCM,
    neJR, neJV, neJH, neJM, neJC, neDR, neDV, neDH, neDM, neDC, neDJ⟩ :=
    module_names_ne name hname
  unfold builtScene
  dsimp only
  rw [addMember_setMembers_ne _ _ neCM, foldlAM_setMembers_ne _ _ (Ne.symm neDC),
    createSet_setMembers_ne _ (Ne.symm neDC), addMember_setMembers_ne _ _ neCM,
    foldlAM_setMembers_ne _ _ (Ne.symm neJC),
    createSet_setMembers_ne _ (Ne.symm neJC), addMember_setMembers_ne _ _ neCM,
    foldlAM_setMembers_self, createSet_setMembers_self]
  · rfl
  · rw [createSet_setMembers_ne _ neCM]
    simp only [setAttr_setMembers, createTransform_setMembers]
    exact setMembers_none_of_not_exists hCS

theorem builtScene_setMembers_JS (name : String) (cs js ds : List String)
    (s : Scene) (hname : name ≠ "")
    (hJS : ¬ s.objExists (jointSetName name)) :
    (builtScene name cs js ds s).setMembers (jointSetName name) =
      some (js.foldl addUnique []) := by
  obtain ⟨neVR, neHR, neHV, neMR, neMV, neMH, neCR, neCV, neCH, neCM,
    neJR, neJV, neJH, neJM, neJC, neDR, neDV, neDH, neDM, neDC, neDJ⟩ :=
    module_names_ne name hname
  unfold builtScene
  dsimp only
  rw [addMember_setMembers_ne _ _ neJM, foldlAM_setMembers_ne _ _ (Ne.symm neDJ),
    createSet_setMembers_ne _ (Ne.symm neDJ), addMember_setMembers_ne _ _ neJM,
    foldlAM_setMembers_self, createSet_setMembers_self]
  · rfl
  · rw [addMember_setMembers_ne _ _ neJM, foldlAM_setMembers_ne _ _ neJC,
      createSet_setMembers_ne _ neJC, createSet_setMembers_ne _ neJM]
    simp only [setAttr_setMembers, createTransform_setMembers]
    exact setMembers_none_of_not_exists hJS

theorem builtScene_setMembers_DS (name : String) (cs js ds : List String)
    (s : Scene) (hname : name ≠ "")
    (hDS : ¬ s.objExists (deformerSetName name)) :
    (builtScene name cs js ds s).setMembers (deformerSetName name) =
      some (ds.foldl addUnique []) := by
  obtain ⟨neVR, neHR, neHV, neMR, neMV, neMH, neCR, neCV, neCH, neCM,
    neJR, neJV, neJH, neJM, neJC, neDR, neDV, neDH, neDM, neDC, neDJ⟩ :=
    module_names_ne name hname
  unfold builtScene
  dsimp only
  rw [addMember_setMembers_ne _ _ neDM, foldlAM_setMembers_self,
    createSet_setMembers_self]
  · rfl
  · rw [addMember_setMembers_ne _ _ neDM, foldlAM_setMembers_ne _ _ neDJ,
      createSet_setMembers_ne _ neDJ, addMember_setMembers_ne _ _ neDM,
      foldlAM_setMembers_ne _ _ neDC, createSet_setMembers_ne _ neDC,
      createSet_setMembers_ne _ neDM]
    simp only [setAttr_setMembers, createTransform_setMembers]
    exact setMembers_none_of_not_exists hDS

/-- Claim C6: for every module built via `build()` with controls, joints and
deformers registered — in a scene where none of the module's generated names
pre-exist — constructing a fresh `RigModule` with the same name and calling
`cast()` succeeds and reproduces exactly the built instance: the same
root/visible/hidden group identities, the same resolved sets, and the same
controls/joints/deformers membership lists; and it leaves the scene
untouched (no node is created). -/
theorem cast_round_trip (name : String) (cs js ds : List String) (s : Scene)
    (hname : name ≠ "")
    (hR : ¬ s.objExists (moduleRootName name))
    (hV : ¬ s.objExists (visGrpName name))
    (hH : ¬ s.objExists (hidGrpName name))
    (hMS : ¬ s.objExists (moduleSetName name))
    (hCS : ¬ s.objExists (controlSetName name))
    (hJS : ¬ s.objExists (jointSetName name))
    (hDS : ¬ s.objExists (deformerSetName name))
    (hpR : s.parentOf (moduleRootName name) = none)
    (hpV : s.parentOf (visGrpName name) = none)
    (hpH : s.parentOf (hidGrpName name) = none) :
    castModule name RigModuleMem.init (builtModule name cs js ds s).2 =
      (Except.ok (builtModule name cs js ds s).1,
        (builtModule name cs js ds s).2) := by
  obtain ⟨neVR, neHR, neHV, neMR, neMV, neMH, neCR, neCV, neCH, neCM,
    neJR, neJV, neJH, neJM, neJC, neDR, neDV, neDH, neDM, neDC, neDJ⟩ :=
    module_names_ne name hname
  rw [builtModule_eq name cs js ds s hname hR hV hH hMS hCS hJS hDS]
  dsimp only
  have hTr := builtScene_transforms name cs js ds s
  have hPar := builtScene_parents name cs js ds s
  have hKeys := builtScene_keys name cs js ds s
  have fR : moduleRootName name ∈ (builtScene name cs js ds s).transforms := by
    rw [hTr]
    simp
  have fV : visGrpName name ∈ (builtScene name cs js ds s).transforms := by
    rw [hTr]
    simp
  have fH : hidGrpName name ∈ (builtScene name cs js ds s).transforms := by
    rw [hTr]
    simp
  have fpR : (builtScene name cs js ds s).parentOf (moduleRootName name) =
      none := by
    unfold Scene.parentOf
    rw [hPar, lookupKey_append_right _ hpR]
    simp [lookupKey, neVR, neHR]
  have fpV : (builtScene name cs js ds s).parentOf (visGrpName name) =
      some (moduleRootName name) := by
    unfold Scene.parentOf
    rw [hPar, lookupKey_append_right _ hpV]
    simp [lookupKey]
  have fpH : (builtScene name cs js ds s).parentOf (hidGrpName name) =
      some (moduleRootName name) := by
    unfold Scene.parentOf
    rw [hPar, lookupKey_append_right _ hpH]
    simp [lookupKey, Ne.symm neHV]
  have fMSk : moduleSetName name ∈
      (builtScene name cs js ds s).sets.map Prod.fst := by
    rw [hKeys]
    simp
  have fCSo : (builtScene name cs js ds s).objExists (controlSetName name) :=
    Or.inr (by rw [hKeys]; simp)
  have fJSo : (builtScene name cs js ds s).objExists (jointSetName name) :=
    Or.inr (by rw [hKeys]; simp)
  have fDSo : (builtScene name cs js ds s).objExists (deformerSetName name) :=
    Or.inr (by rw [hKeys]; simp)
  have fP2V : (builtScene name cs js ds s).pathExists2 (moduleRootName name)
      (visGrpName name) := ⟨fR, fpR, fV, fpV⟩
  have fP2H : (builtScene name cs js ds s).pathExists2 (moduleRootName name)
      (hidGrpName name) := ⟨fR, fpR, fH, fpH⟩
  have fIsM : is_module name (builtScene name cs js ds s) :=
    ⟨Or.inl fR, fP2V, fP2H, Or.inr fMSk⟩
  have fSMms := builtScene_setMembers_MS name cs js ds s hname hMS
  have fSMcs := builtScene_setMembers_CS name cs js ds s hname hCS
  have fSMjs := builtScene_setMembers_JS name cs js ds s hname hJS
  have fSMds := builtScene_setMembers_DS name cs js ds s hname hDS
  unfold castModule
  rw [if_neg (not_not_intro fIsM)]
  dsimp only
  rw [if_neg (not_not_intro fR), if_neg (not_not_intro fP2V),
    if_neg (not_not_intro fP2H), fSMms]
  dsimp only
  rw [if_pos fCSo, if_pos fJSo, if_pos fDSo, fSMcs, fSMjs, fSMds]
  rfl

/-- Witness for C6: a concrete spine module with two controls, one joint and
one deformer, built in the empty scene. -/
theorem cast_round_trip_witness :
    castModule "spine" RigModuleMem.init
        (builtModule "spine" ["a_ctrl", "b_ctrl"] ["a_jnt"] ["a_dfm"]
          Scene.empty).2 =
      (Except.ok (builtModule "spine" ["a_ctrl", "b_ctrl"] ["a_jnt"] ["a_dfm"]
          Scene.empty).1,
        (builtModule "spine" ["a_ctrl", "b_ctrl"] ["a_jnt"] ["a_dfm"]
          Scene.empty).2) :=
  cast_round_trip "spine" ["a_ctrl", "b_ctrl"] ["a_jnt"] ["a_dfm"] Scene.empty
    (by decide) (by decide) (by decide) (by decide) (by decide) (by decide)
    (by decide) (by decide) (by decide) (by decide) (by decide)

end ChiselRigging
